import Mathlib

/-!
Verification of the match scoring cache-and-compute engine of
backend-nextgen.

Shallow embedding of:
  - app/services/gemini_service.py   (GeminiService._sync_analyze_match,
    GeminiService._groq_analyze_with_delay)
  - app/services/groq_service.py     (GroqService.analyze_match)
  - app/services/matching_service.py (MatchingService._get_or_compute_match,
    MatchingService.get_matches_for_student,
    MatchingService.get_candidates_for_vacancy)
  - app/models/match.py              (MatchResult with its pydantic
    range validation on match_percent)
  - app/routers/students.py          (get_student_matches limit clamp)

External effects are made explicit: the Supabase tables are lists of rows
passed in and returned, the wall clock is an integer parameter `now`
measured in hours (the code converts the freshness window with
timedelta(hours=settings.match_cache_hours) and compares isoformat
timestamps, which is order-isomorphic to integer comparison), and the
outcome of each Gemini API call is an input parameter describing what the
HTTP/SDK layer produced.  Prompt text and the exact wording of error
details are abbreviated: they are opaque to the control flow being
verified.  The step and loop outputs carry call counters for the two
providers so that "zero provider calls" style properties are statements
about the embedding itself.
-/

namespace NextGen

/-- A row of the student_profiles table, restricted to the fields the
matching service reads. -/
structure StudentRow where
  id : String
  name : String
  university : String
  specialty : String
  profile_completion : Int
  deriving Repr, DecidableEq

/-- A row of the vacancies table, restricted to the fields the matching
service reads. -/
structure VacancyRow where
  id : String
  title : String
  company : String
  is_active : Bool
  deriving Repr, DecidableEq

/-- A row of the matches cache table (composite key student_id,
vacancy_id).  cached_at is an integer timestamp in hours. -/
structure CacheRow where
  student_id : String
  vacancy_id : String
  match_percent : Int
  strong_skills : List String
  missing_skills : List String
  explanation : String
  cached_at : Int
  deriving Repr, DecidableEq

/-- The dict returned by GeminiService._sync_analyze_match /
GroqService.analyze_match on success. -/
structure ProviderResult where
  match_percent : Int
  strong_skills : List String
  missing_skills : List String
  explanation : String
  deriving Repr, DecidableEq

/-- Outcome of applying int() to a JSON field value:
int(v) either yields an integer or raises (ValueError/TypeError),
whose message is carried for the generic exception handler. -/
inductive JsonNum where
  | intOk (n : Int)
  | intFails (msg : String)
  deriving Repr, DecidableEq

/-- The cleaned response text of the model, as seen by json.loads:
either not valid JSON (json.loads raises JSONDecodeError), or a JSON
object with the four fields each possibly absent (parsed.get defaults
apply). -/
inductive JsonDoc where
  | malformed
  | obj (percent : Option JsonNum) (strong : Option (List String))
      (missing : Option (List String)) (explanation : Option String)
  deriving Repr, DecidableEq

/-- Outcome of the Gemini SDK call self.model.generate_content plus
response.text: either some exception was raised (message carried), or a
text was returned whose cleaned form parses as described by JsonDoc. -/
inductive GenerateOutcome where
  | raises (msg : String)
  | returnsText (doc : JsonDoc)
  deriving Repr, DecidableEq

/-- The HTTPException classes raised by the provider layer:
malformed = HTTP 502 (JSONDecodeError branch),
quotaExhausted = HTTP 429 (quota branch after the fallback attempt),
unavailable = HTTP 503 (generic exception branch). -/
inductive ScoringError where
  | malformed (detail : String)
  | quotaExhausted (detail : String)
  | unavailable (detail : String)
  deriving Repr, DecidableEq

/-- Errors surfacing from _get_or_compute_match: an HTTPException from the
provider layer, or a pydantic ValidationError from MatchResult field
validation (match_percent outside [0,100]). -/
inductive EngineError where
  | scoring (e : ScoringError)
  | validation
  deriving Repr, DecidableEq

/-- The pydantic response model MatchResult (app/models/match.py). -/
structure MatchResult where
  vacancy_id : String
  title : String
  company : String
  match_percent : Int
  strong_skills : List String
  missing_skills : List String
  explanation : String
  cached : Bool
  cached_at : Option Int
  deriving Repr, DecidableEq

/-- Character-list version of str.startswith. -/
def startsWithChars : List Char → List Char → Bool
  | [], _ => true
  | _ :: _, [] => false
  | p :: ps, c :: cs => p == c && startsWithChars ps cs

/-- Character-list version of the Python `in` substring test. -/
def hasSubChars (pat : List Char) : List Char → Bool
  | [] => startsWithChars pat []
  | c :: cs => startsWithChars pat (c :: cs) || hasSubChars pat cs

/-- Substring test on strings, used for the quota check
("429" in error_msg or "quota" in error_msg.lower()). -/
def containsSub (s pat : String) : Bool :=
  hasSubChars pat.toList s.toList

/-- The quota test in the generic exception handler of
_sync_analyze_match; str.lower agrees with Char.toLower on the ASCII
messages involved. -/
def isQuotaError (msg : String) : Bool :=
  containsSub msg "429" ||
    hasSubChars "quota".toList (msg.toList.map Char.toLower)

/-- GeminiService._groq_analyze_with_delay: the body is a bare
raise NotImplementedError, so it fails without ever touching
groq_service.analyze_match. -/
def groqAnalyzeWithDelay : Except String ProviderResult :=
  .error "NotImplementedError: use the separate Groq endpoint"

/-- GeminiService._sync_analyze_match.  Field extraction mirrors
parsed.get("match_percent", 0) (so int(0) = 0 when the key is absent),
parsed.get("strong_skills", []), parsed.get("missing_skills", []),
parsed.get("explanation", "").  The exception handlers mirror the source:
JSONDecodeError gives HTTP 502; any other exception is classified by
isQuotaError, the quota case attempts _groq_analyze_with_delay (which
itself raises, so its handler turns the quota case into HTTP 429) and the
rest give HTTP 503. -/
def syncAnalyzeMatch (api : GenerateOutcome) : Except ScoringError ProviderResult :=
  match api with
  | .returnsText .malformed =>
      .error (.malformed "Gemini returned invalid JSON for match analysis")
  | .returnsText (.obj percent strong missing expl) =>
      match percent with
      | none =>
          .ok ⟨0, strong.getD [], missing.getD [], expl.getD ""⟩
      | some (.intOk n) =>
          .ok ⟨n, strong.getD [], missing.getD [], expl.getD ""⟩
      | some (.intFails msg) =>
          if isQuotaError msg then
            match groqAnalyzeWithDelay with
            | .ok r => .ok r
            | .error groqErr =>
                .error (.quotaExhausted ("Gemini quota exceeded; Groq fallback also failed: " ++ groqErr))
          else
            .error (.unavailable msg)
  | .raises msg =>
      if isQuotaError msg then
        match groqAnalyzeWithDelay with
        | .ok r => .ok r
        | .error groqErr =>
            .error (.quotaExhausted ("Gemini quota exceeded; Groq fallback also failed: " ++ groqErr))
      else
        .error (.unavailable msg)

/-- GroqService.analyze_match, the fallback provider adapter: same parse
shape as the Gemini adapter (including the zero default for a missing
match_percent field), with JSONDecodeError giving HTTP 502 and any other
exception HTTP 503, and no further fallback.  The matching engine never
reaches this function (see groqAnalyzeWithDelay); it is embedded to state
properties of the fallback adapter itself. -/
def groqAnalyzeMatch (api : GenerateOutcome) : Except ScoringError ProviderResult :=
  match api with
  | .returnsText .malformed =>
      .error (.malformed "Groq returned invalid JSON for match analysis")
  | .returnsText (.obj percent strong missing expl) =>
      match percent with
      | none => .ok ⟨0, strong.getD [], missing.getD [], expl.getD ""⟩
      | some (.intOk n) => .ok ⟨n, strong.getD [], missing.getD [], expl.getD ""⟩
      | some (.intFails msg) => .error (.unavailable msg)
  | .raises msg => .error (.unavailable msg)

/-- MatchResult construction with the pydantic validation
Field(ge=0, le=100) on match_percent: out-of-range values make
construction fail (ValidationError) instead of producing a model. -/
def mkMatchResult (vid title company : String) (percent : Int)
    (strong missing : List String) (expl : String) (cached : Bool)
    (cachedAt : Option Int) : Option MatchResult :=
  if 0 ≤ percent ∧ percent ≤ 100 then
    some ⟨vid, title, company, percent, strong, missing, expl, cached, cachedAt⟩
  else
    none

/-- The cache query filter of _get_or_compute_match:
.eq("student_id", sid).eq("vacancy_id", vid).gte("cached_at", threshold)
where threshold = now - timedelta(hours=match_cache_hours). -/
def freshRow (sid vid : String) (threshold : Int) (r : CacheRow) : Bool :=
  r.student_id == sid && r.vacancy_id == vid && decide (threshold ≤ r.cached_at)

/-- Supabase upsert on the matches table with
on_conflict="student_id,vacancy_id": replace the row with the same key if
one exists, else insert. -/
def upsertMatch (cache : List CacheRow) (row : CacheRow) : List CacheRow :=
  if cache.any (fun r => r.student_id == row.student_id && r.vacancy_id == row.vacancy_id) then
    cache.map (fun r =>
      if r.student_id == row.student_id && r.vacancy_id == row.vacancy_id then row else r)
  else
    cache ++ [row]

/-- Output of one _get_or_compute_match call: the returned MatchResult or
the raised error, the matches table after the call, and how many times
each provider endpoint was invoked during the call (geminiCalls counts
GeminiService generate_content calls, groqCalls counts
GroqService.analyze_match calls). -/
structure StepOut where
  result : Except EngineError MatchResult
  cache : List CacheRow
  geminiCalls : Nat
  groqCalls : Nat

/-- MatchingService._get_or_compute_match.  The fresh-cache branch builds
MatchResult from the cached row with cached=True and performs no provider
call; the miss branch calls Gemini once (the Groq endpoint is never
invoked from this path, since _groq_analyze_with_delay raises before
reaching it), upserts the result keyed on (student_id, vacancy_id) with
cached_at = now, and builds MatchResult with cached=False.  Note the
upsert is executed before MatchResult validation, as in the source. -/
def getOrComputeMatch (student : StudentRow) (vacancy : VacancyRow)
    (cache : List CacheRow) (now window : Int) (api : GenerateOutcome) : StepOut :=
  match cache.find? (freshRow student.id vacancy.id (now - window)) with
  | some row =>
      { result :=
          match mkMatchResult vacancy.id vacancy.title vacancy.company
              row.match_percent row.strong_skills row.missing_skills
              row.explanation true (some row.cached_at) with
          | some r => .ok r
          | none => .error .validation
        cache := cache
        geminiCalls := 0
        groqCalls := 0 }
  | none =>
      match syncAnalyzeMatch api with
      | .error e =>
          { result := .error (.scoring e), cache := cache, geminiCalls := 1, groqCalls := 0 }
      | .ok pr =>
          let newCache := upsertMatch cache
            ⟨student.id, vacancy.id, pr.match_percent, pr.strong_skills,
             pr.missing_skills, pr.explanation, now⟩
          { result :=
              match mkMatchResult vacancy.id vacancy.title vacancy.company
                  pr.match_percent pr.strong_skills pr.missing_skills
                  pr.explanation false none with
              | some r => .ok r
              | none => .error .validation
            cache := newCache
            geminiCalls := 1
            groqCalls := 0 }

/-- Output of a ranking loop over a list of candidate rows: the collected
MatchResults in fetch order (or the first error, which aborts the whole
call as in the source, where the exception propagates out of the for
loop), the matches table afterwards, the provider call counters, and the
number of _get_or_compute_match invocations performed. -/
structure LoopOut where
  result : Except EngineError (List MatchResult)
  cache : List CacheRow
  geminiCalls : Nat
  groqCalls : Nat
  pairComputations : Nat

/-- The per-vacancy loop of get_matches_for_student: for each vacancy in
fetch order, _get_or_compute_match with the table threaded through; a
raised error aborts the remaining iterations. -/
def rankLoop (student : StudentRow) (now window : Int)
    (apiFor : VacancyRow → GenerateOutcome) :
    List VacancyRow → List CacheRow → LoopOut
  | [], cache => ⟨.ok [], cache, 0, 0, 0⟩
  | v :: vs, cache =>
      let s := getOrComputeMatch student v cache now window (apiFor v)
      match s.result with
      | .error e => ⟨.error e, s.cache, s.geminiCalls, s.groqCalls, 1⟩
      | .ok r =>
          let rest := rankLoop student now window apiFor vs s.cache
          ⟨rest.result.map (fun l => r :: l), rest.cache,
           s.geminiCalls + rest.geminiCalls, s.groqCalls + rest.groqCalls,
           1 + rest.pairComputations⟩

/-- Stable insertion for a descending sort by an integer key: x is placed
before the first element whose key is ≤ key x, so earlier input elements
stay before later ones among equal keys. -/
def insertByDesc (key : α → Int) (x : α) : List α → List α
  | [] => [x]
  | y :: ys =>
      if key y ≤ key x then x :: y :: ys else y :: insertByDesc key x ys

/-- The stable descending sort by an integer key.  Python list.sort is
stable, and with key=... and reverse=True it produces the unique
permutation that is sorted descending by the key and keeps equal-key
elements in input order; this insertion sort is exactly that function, so
it embeds results.sort(key=lambda x: x.match_percent, reverse=True). -/
def sortByDesc (key : α → Int) : List α → List α
  | [] => []
  | x :: xs => insertByDesc key x (sortByDesc key xs)

/-- MatchingService.get_matches_for_student, with its repository reads
made explicit: vacancies is the vacancies table, and the query
.eq("is_active", True).limit(50) becomes filter + take 50.  After the
loop, sort descending by match_percent (stable) and truncate to limit. -/
def getMatchesForStudent (student : StudentRow) (vacancies : List VacancyRow)
    (limit : Nat) (cache : List CacheRow) (now window : Int)
    (apiFor : VacancyRow → GenerateOutcome) : LoopOut :=
  let active := (vacancies.filter (fun v => v.is_active)).take 50
  let loop := rankLoop student now window apiFor active cache
  { loop with
    result := loop.result.map (fun results =>
      (sortByDesc (fun r => r.match_percent) results).take limit) }

/-- The route handler get_student_matches (app/routers/students.py):
forwards to get_matches_for_student with limit=min(limit, 20). -/
def getStudentMatchesRoute (student : StudentRow) (vacancies : List VacancyRow)
    (limit : Nat) (cache : List CacheRow) (now window : Int)
    (apiFor : VacancyRow → GenerateOutcome) : LoopOut :=
  getMatchesForStudent student vacancies (min limit 20) cache now window apiFor

/-- A candidate entry built by get_candidates_for_vacancy: student fields
plus the match fields of the MatchResult for the pair. -/
structure CandidateRow where
  student_id : String
  name : String
  university : String
  specialty : String
  match_percent : Int
  strong_skills : List String
  missing_skills : List String
  explanation : String
  deriving Repr, DecidableEq

/-- Output of get_candidates_for_vacancy, with the same bookkeeping as
LoopOut. -/
structure CandOut where
  result : Except EngineError (List CandidateRow)
  cache : List CacheRow
  geminiCalls : Nat
  groqCalls : Nat
  pairComputations : Nat

/-- The per-student loop of get_candidates_for_vacancy. -/
def candLoop (vacancy : VacancyRow) (now window : Int)
    (apiFor : StudentRow → GenerateOutcome) :
    List StudentRow → List CacheRow → CandOut
  | [], cache => ⟨.ok [], cache, 0, 0, 0⟩
  | s :: ss, cache =>
      let step := getOrComputeMatch s vacancy cache now window (apiFor s)
      match step.result with
      | .error e => ⟨.error e, step.cache, step.geminiCalls, step.groqCalls, 1⟩
      | .ok r =>
          let entry : CandidateRow :=
            ⟨s.id, s.name, s.university, s.specialty, r.match_percent,
             r.strong_skills, r.missing_skills, r.explanation⟩
          let rest := candLoop vacancy now window apiFor ss step.cache
          ⟨rest.result.map (fun l => entry :: l), rest.cache,
           step.geminiCalls + rest.geminiCalls, step.groqCalls + rest.groqCalls,
           1 + rest.pairComputations⟩

/-- MatchingService.get_candidates_for_vacancy: the student query is
.gte("profile_completion", 30) with no .limit call, so every qualifying
student row is iterated; then sort descending by match_percent and
truncate to limit. -/
def getCandidatesForVacancy (vacancy : VacancyRow) (students : List StudentRow)
    (limit : Nat) (cache : List CacheRow) (now window : Int)
    (apiFor : StudentRow → GenerateOutcome) : CandOut :=
  let qualifying := students.filter (fun s => decide (30 ≤ s.profile_completion))
  let loop := candLoop vacancy now window apiFor qualifying cache
  { loop with
    result := loop.result.map (fun cands =>
      (sortByDesc (fun c => c.match_percent) cands).take limit) }

/-! General lemmas about the stable descending sort. -/

theorem mem_insertByDesc {α : Type _} (key : α → Int) (x a : α) :
    ∀ l : List α, a ∈ insertByDesc key x l ↔ a = x ∨ a ∈ l := by
  intro l
  induction l with
  | nil => simp [insertByDesc]
  | cons y ys ih =>
      by_cases hc : key y ≤ key x
      · simp [insertByDesc, hc]
      · simp only [insertByDesc, if_neg hc, List.mem_cons, ih]
        tauto

theorem insertByDesc_pairwise {α : Type _} (key : α → Int) (x : α) :
    ∀ l : List α, l.Pairwise (fun a b => key b ≤ key a) →
      (insertByDesc key x l).Pairwise (fun a b => key b ≤ key a) := by
  intro l
  induction l with
  | nil => intro _; simp [insertByDesc]
  | cons y ys ih =>
      intro h
      rw [List.pairwise_cons] at h
      by_cases hc : key y ≤ key x
      · rw [insertByDesc, if_pos hc, List.pairwise_cons]
        refine ⟨?_, List.pairwise_cons.mpr h⟩
        intro z hz
        rcases List.mem_cons.mp hz with rfl | hz
        · exact hc
        · exact le_trans (h.1 z hz) hc
      · rw [insertByDesc, if_neg hc, List.pairwise_cons]
        refine ⟨?_, ih h.2⟩
        intro z hz
        rcases (mem_insertByDesc key x z ys).mp hz with rfl | hz
        · exact le_of_lt (lt_of_not_le hc)
        · exact h.1 z hz

theorem sortByDesc_pairwise {α : Type _} (key : α → Int) :
    ∀ l : List α, (sortByDesc key l).Pairwise (fun a b => key b ≤ key a) := by
  intro l
  induction l with
  | nil => simp [sortByDesc]
  | cons x xs ih => exact insertByDesc_pairwise key x _ ih

theorem mem_sortByDesc {α : Type _} (key : α → Int) (a : α) :
    ∀ l : List α, a ∈ sortByDesc key l ↔ a ∈ l := by
  intro l
  induction l with
  | nil => simp [sortByDesc]
  | cons x xs ih =>
      rw [sortByDesc, mem_insertByDesc, ih, List.mem_cons]

theorem filter_insertByDesc {α : Type _} (key : α → Int) (x : α) (p : Int) :
    ∀ l : List α, (insertByDesc key x l).filter (fun r => key r == p) =
      (x :: l).filter (fun r => key r == p) := by
  intro l
  induction l with
  | nil => rfl
  | cons y ys ih =>
      by_cases hc : key y ≤ key x
      · rw [insertByDesc, if_pos hc]
      · rw [insertByDesc, if_neg hc]
        by_cases hx : key x = p <;> by_cases hy : key y = p
        · exact absurd (hy ▸ hx ▸ le_refl p) hc
        · simp [List.filter_cons, beq_iff_eq, hx, hy, ih]
        · simp [List.filter_cons, beq_iff_eq, hx, hy, ih]
        · simp [List.filter_cons, beq_iff_eq, hx, hy, ih]

theorem filter_sortByDesc {α : Type _} (key : α → Int) (p : Int) :
    ∀ l : List α, (sortByDesc key l).filter (fun r => key r == p) =
      l.filter (fun r => key r == p) := by
  intro l
  induction l with
  | nil => rfl
  | cons x xs ih =>
      rw [sortByDesc, filter_insertByDesc, List.filter_cons, List.filter_cons, ih]

/-! Lemmas about result construction and the per-pair step. -/

theorem mkMatchResult_range {vid title company : String} {percent : Int}
    {strong missing : List String} {expl : String} {cached : Bool}
    {cachedAt : Option Int} {r : MatchResult}
    (h : mkMatchResult vid title company percent strong missing expl cached cachedAt = some r) :
    0 ≤ r.match_percent ∧ r.match_percent ≤ 100 := by
  unfold mkMatchResult at h
  split at h
  · cases h
    assumption
  · cases h

theorem getOrComputeMatch_ok_range (student : StudentRow) (vacancy : VacancyRow)
    (cache : List CacheRow) (now window : Int) (api : GenerateOutcome)
    (r : MatchResult)
    (h : (getOrComputeMatch student vacancy cache now window api).result = .ok r) :
    0 ≤ r.match_percent ∧ r.match_percent ≤ 100 := by
  unfold getOrComputeMatch at h
  cases hfind : cache.find? (freshRow student.id vacancy.id (now - window)) with
  | some row =>
      rw [hfind] at h
      simp only at h
      cases hmk : mkMatchResult vacancy.id vacancy.title vacancy.company
          row.match_percent row.strong_skills row.missing_skills
          row.explanation true (some row.cached_at) with
      | some r2 =>
          rw [hmk] at h
          cases h
          exact mkMatchResult_range hmk
      | none =>
          rw [hmk] at h
          cases h
  | none =>
      rw [hfind] at h
      simp only at h
      cases hsync : syncAnalyzeMatch api with
      | error e =>
          rw [hsync] at h
          cases h
      | ok pr =>
          rw [hsync] at h
          simp only at h
          cases hmk : mkMatchResult vacancy.id vacancy.title vacancy.company
              pr.match_percent pr.strong_skills pr.missing_skills
              pr.explanation false none with
          | some r2 =>
              rw [hmk] at h
              cases h
              exact mkMatchResult_range hmk
          | none =>
              rw [hmk] at h
              cases h

/-! Lemmas about the ranking loops. -/

theorem rankLoop_ok_range (student : StudentRow) (now window : Int)
    (apiFor : VacancyRow → GenerateOutcome) :
    ∀ (vs : List VacancyRow) (cache : List CacheRow) (l : List MatchResult),
      (rankLoop student now window apiFor vs cache).result = .ok l →
      ∀ r ∈ l, 0 ≤ r.match_percent ∧ r.match_percent ≤ 100 := by
  intro vs
  induction vs with
  | nil =>
      intro cache l h r hr
      simp only [rankLoop] at h
      cases h
      cases hr
  | cons v vs ih =>
      intro cache l h r hr
      simp only [rankLoop] at h
      cases hstep : (getOrComputeMatch student v cache now window (apiFor v)).result with
      | error e =>
          rw [hstep] at h
          cases h
      | ok r0 =>
          rw [hstep] at h
          simp only at h
          cases hrest : (rankLoop student now window apiFor vs
              (getOrComputeMatch student v cache now window (apiFor v)).cache).result with
          | error e =>
              rw [hrest] at h
              cases h
          | ok tail =>
              rw [hrest] at h
              simp only [Except.map] at h
              cases h
              rcases List.mem_cons.mp hr with rfl | hr2
              · exact getOrComputeMatch_ok_range student v cache now window (apiFor v) r hstep
              · exact ih _ tail hrest r hr2

theorem rankLoop_pairComputations_le (student : StudentRow) (now window : Int)
    (apiFor : VacancyRow → GenerateOutcome) :
    ∀ (vs : List VacancyRow) (cache : List CacheRow),
      (rankLoop student now window apiFor vs cache).pairComputations ≤ vs.length := by
  intro vs
  induction vs with
  | nil => intro cache; simp [rankLoop]
  | cons v vs ih =>
      intro cache
      simp only [rankLoop, List.length_cons]
      cases hstep : (getOrComputeMatch student v cache now window (apiFor v)).result with
      | error e => simp only; omega
      | ok r0 =>
          simp only
          have := ih (getOrComputeMatch student v cache now window (apiFor v)).cache
          omega

theorem candLoop_pairComputations_le (vacancy : VacancyRow) (now window : Int)
    (apiFor : StudentRow → GenerateOutcome) :
    ∀ (ss : List StudentRow) (cache : List CacheRow),
      (candLoop vacancy now window apiFor ss cache).pairComputations ≤ ss.length := by
  intro ss
  induction ss with
  | nil => intro cache; simp [candLoop]
  | cons s ss ih =>
      intro cache
      simp only [candLoop, List.length_cons]
      cases hstep : (getOrComputeMatch s vacancy cache now window (apiFor s)).result with
      | error e => simp only; omega
      | ok r0 =>
          simp only
          have := ih (getOrComputeMatch s vacancy cache now window (apiFor s)).cache
          omega

/-! Concrete sample data used by the witnesses and counterexamples. -/

def stA : StudentRow := ⟨"s1", "Anna", "ITMO", "SE", 80⟩

def vacA : VacancyRow := ⟨"v1", "Junior Backend", "TechCorp", true⟩

def vacB : VacancyRow := ⟨"v2", "Data Analyst", "DataCo", true⟩

def vacC : VacancyRow := ⟨"v3", "DevOps", "CloudInc", true⟩

def vacD : VacancyRow := ⟨"v4", "Frontend", "WebCo", true⟩

def vacE : VacancyRow := ⟨"v5", "ML Intern", "AILab", true⟩

def vacF : VacancyRow := ⟨"v6", "QA", "TestCo", true⟩

/-- A cache row 1 hour old at now = 1000 (window 24). -/
def rowFresh : CacheRow := ⟨"s1", "v1", 77, ["Python"], ["Docker"], "good fit", 999⟩

/-- A cache row 25 hours old at now = 1000 (window 24). -/
def rowStale : CacheRow := ⟨"s1", "v1", 77, ["Python"], ["Docker"], "good fit", 975⟩

/-- A Gemini response that parses into a full result with the given
percent. -/
def apiScore (n : Int) : GenerateOutcome :=
  .returnsText (.obj (some (.intOk n)) (some ["Python"]) (some ["Docker"]) (some "ok"))

/-- The MatchResult produced from apiScore data on a cache miss. -/
def mres (vid title company : String) (p : Int) : MatchResult :=
  ⟨vid, title, company, p, ["Python"], ["Docker"], "ok", false, none⟩

/-- C4: for every pair with a cached ScoreRecord matched by the freshness
query (its score satisfying the ScoreRecord range invariant of the data
model), _get_or_compute_match returns exactly the cached values tagged
cached=True, leaves the matches table unchanged, and performs zero
provider calls; and the freshness filter holds for a row precisely when
the keys match and now - cached_at ≤ window. -/
theorem computeOrFetch_freshHit_usesCacheOnly (student : StudentRow)
    (vacancy : VacancyRow) (cache : List CacheRow) (now window : Int)
    (api : GenerateOutcome) (row : CacheRow)
    (hfind : cache.find? (freshRow student.id vacancy.id (now - window)) = some row)
    (hrange : 0 ≤ row.match_percent ∧ row.match_percent ≤ 100) :
    (getOrComputeMatch student vacancy cache now window api).result =
        .ok ⟨vacancy.id, vacancy.title, vacancy.company, row.match_percent,
             row.strong_skills, row.missing_skills, row.explanation, true,
             some row.cached_at⟩
      ∧ (getOrComputeMatch student vacancy cache now window api).cache = cache
      ∧ (getOrComputeMatch student vacancy cache now window api).geminiCalls = 0
      ∧ (getOrComputeMatch student vacancy cache now window api).groqCalls = 0
      ∧ ∀ r : CacheRow, freshRow student.id vacancy.id (now - window) r = true ↔
          r.student_id = student.id ∧ r.vacancy_id = vacancy.id ∧
            now - r.cached_at ≤ window := by
  have hmk : mkMatchResult vacancy.id vacancy.title vacancy.company row.match_percent
      row.strong_skills row.missing_skills row.explanation true (some row.cached_at) =
      some ⟨vacancy.id, vacancy.title, vacancy.company, row.match_percent,
            row.strong_skills, row.missing_skills, row.explanation, true,
            some row.cached_at⟩ := by
    unfold mkMatchResult
    rw [if_pos hrange]
  refine ⟨?_, ?_, ?_, ?_, ?_⟩
  · simp [getOrComputeMatch, hfind, hmk]
  · simp [getOrComputeMatch, hfind]
  · simp [getOrComputeMatch, hfind]
  · simp [getOrComputeMatch, hfind]
  · intro r
    simp only [freshRow, Bool.and_eq_true, beq_iff_eq, decide_eq_true_eq]
    constructor
    · rintro ⟨⟨h1, h2⟩, h3⟩
      exact ⟨h1, h2, by omega⟩
    · rintro ⟨h1, h2, h3⟩
      exact ⟨⟨h1, h2⟩, by omega⟩

/-- Witness for C4: the 1-hour-old cached row under a 24-hour window is
returned from cache with zero provider calls. -/
theorem computeOrFetch_freshHit_usesCacheOnly_witness :
    (getOrComputeMatch stA vacA [rowFresh] 1000 24 (apiScore 50)).result =
        .ok ⟨"v1", "Junior Backend", "TechCorp", 77, ["Python"], ["Docker"],
             "good fit", true, some 999⟩
      ∧ (getOrComputeMatch stA vacA [rowFresh] 1000 24 (apiScore 50)).geminiCalls = 0
      ∧ (getOrComputeMatch stA vacA [rowFresh] 1000 24 (apiScore 50)).groqCalls = 0
      ∧ (freshRow stA.id vacA.id (1000 - 24) rowFresh = true ↔
          rowFresh.student_id = stA.id ∧ rowFresh.vacancy_id = vacA.id ∧
            1000 - rowFresh.cached_at ≤ 24) := by
  have h := computeOrFetch_freshHit_usesCacheOnly stA vacA [rowFresh] 1000 24
    (apiScore 50) rowFresh (by rfl) (by decide)
  exact ⟨h.1, h.2.2.1, h.2.2.2.1, h.2.2.2.2 rowFresh⟩

/-- C5: when no cached row for the pair passes the freshness filter
(either none exists for the key, or every row for the key has
now - cached_at > window), _get_or_compute_match performs exactly one
Gemini call, whatever the call returns. -/
theorem computeOrFetch_staleOrAbsent_oneGeminiCall (student : StudentRow)
    (vacancy : VacancyRow) (cache : List CacheRow) (now window : Int)
    (api : GenerateOutcome)
    (hstale : ∀ r ∈ cache, r.student_id = student.id → r.vacancy_id = vacancy.id →
        window < now - r.cached_at) :
    (getOrComputeMatch student vacancy cache now window api).geminiCalls = 1 := by
  have hnone : cache.find? (freshRow student.id vacancy.id (now - window)) = none := by
    rw [List.find?_eq_none]
    intro r hr hcontra
    simp only [freshRow, Bool.and_eq_true, beq_iff_eq, decide_eq_true_eq] at hcontra
    obtain ⟨⟨h1, h2⟩, h3⟩ := hcontra
    have := hstale r hr h1 h2
    omega
  simp only [getOrComputeMatch, hnone]
  cases hsync : syncAnalyzeMatch api <;> rfl

/-- Witness for C5: a 25-hour-old cached row under a 24-hour window is
treated as stale and triggers a recompute (one Gemini call). -/
theorem computeOrFetch_staleOrAbsent_oneGeminiCall_witness :
    (getOrComputeMatch stA vacA [rowStale] 1000 24 (apiScore 50)).geminiCalls = 1 :=
  computeOrFetch_staleOrAbsent_oneGeminiCall stA vacA [rowStale] 1000 24
    (apiScore 50) (by decide)

/-- C6: on a cache miss, when Gemini returns text that is not valid JSON
(InvalidResponse), _get_or_compute_match propagates the HTTP 502
ScoringMalformed error immediately: the Groq endpoint is not called and
the matches table is left unchanged. -/
theorem computeOrFetch_invalidResponse_noFallback (student : StudentRow)
    (vacancy : VacancyRow) (cache : List CacheRow) (now window : Int)
    (hmiss : cache.find? (freshRow student.id vacancy.id (now - window)) = none) :
    (getOrComputeMatch student vacancy cache now window (.returnsText .malformed)).result =
        .error (.scoring (.malformed "Gemini returned invalid JSON for match analysis"))
      ∧ (getOrComputeMatch student vacancy cache now window (.returnsText .malformed)).groqCalls = 0
      ∧ (getOrComputeMatch student vacancy cache now window (.returnsText .malformed)).cache = cache := by
  refine ⟨?_, ?_, ?_⟩ <;> simp [getOrComputeMatch, hmiss, syncAnalyzeMatch]

/-- Witness for C6: on an empty cache with a malformed Gemini response,
the 502 error propagates with zero Groq calls. -/
theorem computeOrFetch_invalidResponse_noFallback_witness :
    (getOrComputeMatch stA vacA [] 1000 24 (.returnsText .malformed)).result =
        .error (.scoring (.malformed "Gemini returned invalid JSON for match analysis"))
      ∧ (getOrComputeMatch stA vacA [] 1000 24 (.returnsText .malformed)).groqCalls = 0
      ∧ (getOrComputeMatch stA vacA [] 1000 24 (.returnsText .malformed)).cache = [] :=
  computeOrFetch_invalidResponse_noFallback stA vacA [] 1000 24 (by rfl)

/-- C7: when the per-pair loop over the fetched active vacancies succeeds
with the list of results in fetch order, the output of
get_matches_for_student is exactly the stable descending sort of that
list truncated to limit: it is sorted by match_percent descending, and
for every score value the equal-score entries appear in fetch order
(stability); the whole pipeline is a pure function of the fetched inputs,
so the ordering is deterministic. -/
theorem rankOffers_sorted_stable (student : StudentRow)
    (vacancies : List VacancyRow) (limit : Nat) (cache : List CacheRow)
    (now window : Int) (apiFor : VacancyRow → GenerateOutcome)
    (results : List MatchResult)
    (hloop : (rankLoop student now window apiFor
        ((vacancies.filter (fun v => v.is_active)).take 50) cache).result = .ok results) :
    (getMatchesForStudent student vacancies limit cache now window apiFor).result =
        .ok ((sortByDesc (fun r => r.match_percent) results).take limit)
      ∧ ((sortByDesc (fun r => r.match_percent) results).take limit).Pairwise
          (fun a b => b.match_percent ≤ a.match_percent)
      ∧ ∀ p : Int, (sortByDesc (fun r => r.match_percent) results).filter
            (fun r => r.match_percent == p) =
          results.filter (fun r => r.match_percent == p) := by
  refine ⟨?_, ?_, ?_⟩
  · simp [getMatchesForStudent, hloop, Except.map]
  · exact (sortByDesc_pairwise (fun r => r.match_percent) results).sublist
      (List.take_sublist limit _)
  · intro p
    exact filter_sortByDesc (fun r => r.match_percent) p results

/-- Witness for C7: ranking three active offers with scores 60, 80, 60
yields the stable descending order v2, v1, v3 (the tied 60s keep fetch
order). -/
theorem rankOffers_sorted_stable_witness :
    (getMatchesForStudent stA [vacA, vacB, vacC] 10 [] 1000 24
        (fun v => if v.id == "v2" then apiScore 80 else apiScore 60)).result =
        .ok ((sortByDesc (fun r => r.match_percent)
          [mres "v1" "Junior Backend" "TechCorp" 60,
           mres "v2" "Data Analyst" "DataCo" 80,
           mres "v3" "DevOps" "CloudInc" 60]).take 10)
      ∧ ((sortByDesc (fun r => r.match_percent)
          [mres "v1" "Junior Backend" "TechCorp" 60,
           mres "v2" "Data Analyst" "DataCo" 80,
           mres "v3" "DevOps" "CloudInc" 60]).take 10).Pairwise
          (fun a b => b.match_percent ≤ a.match_percent)
      ∧ (sortByDesc (fun r => r.match_percent)
          [mres "v1" "Junior Backend" "TechCorp" 60,
           mres "v2" "Data Analyst" "DataCo" 80,
           mres "v3" "DevOps" "CloudInc" 60]).filter
            (fun r => r.match_percent == (60 : Int)) =
          [mres "v1" "Junior Backend" "TechCorp" 60,
           mres "v2" "Data Analyst" "DataCo" 80,
           mres "v3" "DevOps" "CloudInc" 60].filter
            (fun r => r.match_percent == (60 : Int)) := by
  have h := rankOffers_sorted_stable stA [vacA, vacB, vacC] 10 [] 1000 24
    (fun v => if v.id == "v2" then apiScore 80 else apiScore 60)
    [mres "v1" "Junior Backend" "TechCorp" 60,
     mres "v2" "Data Analyst" "DataCo" 80,
     mres "v3" "DevOps" "CloudInc" 60] (by rfl)
  exact ⟨h.1, h.2.1, h.2.2 60⟩

/-- C8: the route handler clamps the requested limit to min(limit, 20)
before calling get_matches_for_student, which truncates with
results[:limit]; so for every non-negative requested limit a successful
call returns at most min(limit, 20) entries. -/
theorem routeMatches_limit_clamped (student : StudentRow)
    (vacancies : List VacancyRow) (limit : Nat) (cache : List CacheRow)
    (now window : Int) (apiFor : VacancyRow → GenerateOutcome)
    (out : List MatchResult)
    (hok : (getStudentMatchesRoute student vacancies limit cache now window apiFor).result =
        .ok out) :
    out.length ≤ min limit 20 := by
  simp only [getStudentMatchesRoute, getMatchesForStudent] at hok
  cases hloop : (rankLoop student now window apiFor
      ((vacancies.filter (fun v => v.is_active)).take 50) cache).result with
  | error e =>
      rw [hloop] at hok
      simp [Except.map] at hok
  | ok results =>
      rw [hloop] at hok
      simp only [Except.map] at hok
      cases hok
      exact List.length_take_le _ _

/-- Witness for C8: with six active offers and requested limit 5, the
route returns exactly 5 entries, within min(5, 20). -/
theorem routeMatches_limit_clamped_witness :
    ([mres "v1" "Junior Backend" "TechCorp" 50,
      mres "v2" "Data Analyst" "DataCo" 50,
      mres "v3" "DevOps" "CloudInc" 50,
      mres "v4" "Frontend" "WebCo" 50,
      mres "v5" "ML Intern" "AILab" 50] : List MatchResult).length ≤ min 5 20 :=
  routeMatches_limit_clamped stA [vacA, vacB, vacC, vacD, vacE, vacF] 5 [] 1000 24
    (fun _ => apiScore 50)
    [mres "v1" "Junior Backend" "TechCorp" 50,
     mres "v2" "Data Analyst" "DataCo" 50,
     mres "v3" "DevOps" "CloudInc" 50,
     mres "v4" "Frontend" "WebCo" 50,
     mres "v5" "ML Intern" "AILab" 50] (by rfl)

/-- C10: every MatchResult returned by _get_or_compute_match has
0 ≤ match_percent ≤ 100, because MatchResult construction validates the
field and out-of-range values fail with an error instead of producing a
model; consequently every entry of a successful get_matches_for_student
output is in range. -/
theorem matchResult_percent_within_range :
    (∀ (student : StudentRow) (vacancy : VacancyRow) (cache : List CacheRow)
        (now window : Int) (api : GenerateOutcome) (r : MatchResult),
      (getOrComputeMatch student vacancy cache now window api).result = .ok r →
      0 ≤ r.match_percent ∧ r.match_percent ≤ 100)
    ∧ (∀ (student : StudentRow) (vacancies : List VacancyRow) (limit : Nat)
        (cache : List CacheRow) (now window : Int)
        (apiFor : VacancyRow → GenerateOutcome) (out : List MatchResult),
      (getMatchesForStudent student vacancies limit cache now window apiFor).result = .ok out →
      ∀ r ∈ out, 0 ≤ r.match_percent ∧ r.match_percent ≤ 100) := by
  constructor
  · exact getOrComputeMatch_ok_range
  · intro student vacancies limit cache now window apiFor out hok r hr
    simp only [getMatchesForStudent] at hok
    cases hloop : (rankLoop student now window apiFor
        ((vacancies.filter (fun v => v.is_active)).take 50) cache).result with
    | error e =>
        rw [hloop] at hok
        simp [Except.map] at hok
    | ok results =>
        rw [hloop] at hok
        simp only [Except.map] at hok
        cases hok
        have hmem : r ∈ sortByDesc (fun r => r.match_percent) results :=
          List.take_subset _ _ hr
        have hmem2 : r ∈ results :=
          (mem_sortByDesc (fun r => r.match_percent) r results).mp hmem
        exact rankLoop_ok_range student now window apiFor _ cache results hloop r hmem2

/-- Witness for C10: a successful computation with score 75 is in range. -/
theorem matchResult_percent_within_range_witness :
    0 ≤ (mres "v1" "Junior Backend" "TechCorp" 75).match_percent ∧
      (mres "v1" "Junior Backend" "TechCorp" 75).match_percent ≤ 100 :=
  matchResult_percent_within_range.1 stA vacA [] 1000 24 (apiScore 75)
    (mres "v1" "Junior Backend" "TechCorp" 75) (by rfl)

/-- 51 students who all pass the profile_completion ≥ 30 filter. -/
def manyStudents : List StudentRow :=
  (List.range 51).map (fun i => ⟨Nat.repr i, "", "", "", 30⟩)

/-- Counterexample to C9 as stated: ranking candidates for one vacancy
against 51 qualifying students performs 51 per-pair score computations,
because the student query of get_candidates_for_vacancy has no page
limit; the fan-out is not bounded by 50 in that direction. -/
theorem candidates_fanout_exceeds_page :
    ¬ ((getCandidatesForVacancy vacA manyStudents 10 [] 1000 24
        (fun _ => apiScore 50)).pairComputations ≤ 50) := by
  have h : (getCandidatesForVacancy vacA manyStudents 10 [] 1000 24
      (fun _ => apiScore 50)).pairComputations = 51 := by rfl
  omega

/-- C9 amended: get_matches_for_student fans out to at most 50 per-pair
computations (the active-vacancy query takes the first 50 rows), while
get_candidates_for_vacancy fans out to at most one computation per
student passing the completeness ≥ 30 filter, with no 50-row page bound
in that direction. -/
theorem fanout_bounds (student : StudentRow) (vacancies : List VacancyRow)
    (limit : Nat) (cache : List CacheRow) (now window : Int)
    (apiFor : VacancyRow → GenerateOutcome) (vacancy : VacancyRow)
    (students : List StudentRow) (limit2 : Nat) (cache2 : List CacheRow)
    (apiFor2 : StudentRow → GenerateOutcome) :
    (getMatchesForStudent student vacancies limit cache now window apiFor).pairComputations ≤ 50
    ∧ (getCandidatesForVacancy vacancy students limit2 cache2 now window apiFor2).pairComputations ≤
        (students.filter (fun s => decide (30 ≤ s.profile_completion))).length := by
  constructor
  · simp only [getMatchesForStudent]
    refine le_trans (rankLoop_pairComputations_le student now window apiFor _ cache) ?_
    rw [List.length_take]
    exact min_le_left _ _
  · simp only [getCandidatesForVacancy]
    exact candLoop_pairComputations_le vacancy now window apiFor2 _ cache2

/-- C1 (code behavior at the failing input): ranking a student against 3
active offers where every Gemini call raises a quota error ("429"):
instead of calling the Groq fallback once per pair and returning its
results, the code performs zero Groq calls (the bridge
_groq_analyze_with_delay raises NotImplementedError before reaching
GroqService.analyze_match), aborts the whole ranking call after the
first pair with the HTTP 429 error, and caches nothing. -/
theorem ranking_quota_noGroqCall_aborts :
    (getMatchesForStudent stA [vacA, vacB, vacC] 10 [] 1000 24
        (fun _ => .raises "429 Resource has been exhausted (check quota)")).result =
        .error (.scoring (.quotaExhausted
          ("Gemini quota exceeded; Groq fallback also failed: " ++
            "NotImplementedError: use the separate Groq endpoint")))
      ∧ (getMatchesForStudent stA [vacA, vacB, vacC] 10 [] 1000 24
          (fun _ => .raises "429 Resource has been exhausted (check quota)")).groqCalls = 0
      ∧ (getMatchesForStudent stA [vacA, vacB, vacC] 10 [] 1000 24
          (fun _ => .raises "429 Resource has been exhausted (check quota)")).geminiCalls = 1
      ∧ (getMatchesForStudent stA [vacA, vacB, vacC] 10 [] 1000 24
          (fun _ => .raises "429 Resource has been exhausted (check quota)")).cache = [] := by
  refine ⟨?_, ?_, ?_, ?_⟩ <;> rfl

/-- C2 (code behavior at the failing input): when Gemini returns a valid
JSON payload with match_percent = 135 on a cache miss, the adapter does
not reject it as InvalidResponse: the out-of-range record is upserted to
the matches table, and only afterwards does MatchResult validation fail,
so the call errors while the bad score stays cached. -/
theorem percent135_cached_then_validationError :
    (getOrComputeMatch stA vacA [] 1000 24
        (.returnsText (.obj (some (.intOk 135)) (some ["Python"]) (some []) (some "great")))).result =
        .error .validation
      ∧ (getOrComputeMatch stA vacA [] 1000 24
          (.returnsText (.obj (some (.intOk 135)) (some ["Python"]) (some []) (some "great")))).cache =
        [⟨"s1", "v1", 135, ["Python"], [], "great", 1000⟩] := by
  exact ⟨rfl, rfl⟩

/-- Counterexample to C3 as stated: a provider response that is valid
JSON but lacks the match_percent field (no parseable score) does not
propagate ScoringMalformed; the adapter silently substitutes score 0,
which is both returned (cached=False) and written to the matches
table. -/
theorem missingScore_silentZero :
    (getOrComputeMatch stA vacB [] 1000 24
        (.returnsText (.obj none (some ["SQL"]) (some ["Go"]) (some "no score field")))).result =
        .ok ⟨"v2", "Data Analyst", "DataCo", 0, ["SQL"], ["Go"], "no score field", false, none⟩
      ∧ (getOrComputeMatch stA vacB [] 1000 24
          (.returnsText (.obj none (some ["SQL"]) (some ["Go"]) (some "no score field")))).cache =
        [⟨"s1", "v2", 0, ["SQL"], ["Go"], "no score field", 1000⟩] := by
  exact ⟨rfl, rfl⟩

/-- C3 amended: only a response that is not valid JSON at all is
propagated as ScoringMalformed (HTTP 502) with no record cached; a valid
JSON payload that merely lacks the match_percent field is silently given
score 0 by both provider adapters (parsed.get("match_percent", 0)), and
the Groq adapter classifies unparseable JSON as 502 in the same way. -/
theorem malformedJson_propagates_but_missingField_defaultsZero
    (student : StudentRow) (vacancy : VacancyRow) (cache : List CacheRow)
    (now window : Int)
    (hmiss : cache.find? (freshRow student.id vacancy.id (now - window)) = none) :
    ((getOrComputeMatch student vacancy cache now window (.returnsText .malformed)).result =
        .error (.scoring (.malformed "Gemini returned invalid JSON for match analysis"))
      ∧ (getOrComputeMatch student vacancy cache now window (.returnsText .malformed)).cache = cache)
    ∧ (∀ (strong missing : Option (List String)) (expl : Option String),
        syncAnalyzeMatch (.returnsText (.obj none strong missing expl)) =
          .ok ⟨0, strong.getD [], missing.getD [], expl.getD ""⟩)
    ∧ groqAnalyzeMatch (.returnsText .malformed) =
        .error (.malformed "Groq returned invalid JSON for match analysis") := by
  refine ⟨⟨?_, ?_⟩, ?_, rfl⟩
  · simp [getOrComputeMatch, hmiss, syncAnalyzeMatch]
  · simp [getOrComputeMatch, hmiss, syncAnalyzeMatch]
  · intro strong missing expl
    rfl

/-- Witness for the amended C3: on an empty cache the malformed branch
propagates 502 and caches nothing, while a payload without match_percent
yields score 0. -/
theorem malformedJson_propagates_but_missingField_defaultsZero_witness :
    ((getOrComputeMatch stA vacC [] 1000 24 (.returnsText .malformed)).result =
        .error (.scoring (.malformed "Gemini returned invalid JSON for match analysis"))
      ∧ (getOrComputeMatch stA vacC [] 1000 24 (.returnsText .malformed)).cache = [])
    ∧ syncAnalyzeMatch (.returnsText (.obj none (some ["SQL"]) none none)) =
        .ok ⟨0, ["SQL"], [], ""⟩
    ∧ groqAnalyzeMatch (.returnsText .malformed) =
        .error (.malformed "Groq returned invalid JSON for match analysis") := by
  have h := malformedJson_propagates_but_missingField_defaultsZero stA vacC [] 1000 24 (by rfl)
  exact ⟨h.1, h.2.1 (some ["SQL"]) none none, h.2.2⟩

end NextGen
